import Mathlib

/-!
Shallow embedding of `src/appinsights/src/channel/state.rs` from
appinsights-rs: the telemetry channel's background dispatcher worker.

The `sm! worker { .. }` macro invocation (state.rs lines 15-55) declares a
typed state machine; it is embedded here as the inductive types `State`,
`Event` and `Variant` together with the partial `transition` table, where
`none` stands for a (state, event) pair that the generated machine makes
unrepresentable at compile time.

`Worker::run` and its handler methods are embedded as pure functions over a
`Config` record.  The worker's environment (the crossbeam command channel,
the telemetry-record channel, the timers and the transmitter) is modelled by
explicit input traces carried inside `Config`:

* `selects`  - the resolution of each `select!` wait, in order: either a
  command was received, the command channel reported closed (`Err`), or the
  timeout fired first;
* `drains`   - the records found on the record channel by each
  `event_receiver.try_iter()` drain, in arrival order;
* `responses` - the transmitter's answer to each `transmitter.send` call.

`sends` is an observation log: the batch passed to each `transmitter.send`
call is appended to it, so `sends` growing by one element is exactly one
transmitter invocation.  A handler returns `none` when the finite input
trace does not determine its next wait (the real worker would block), which
ends a modelled run.
-/

namespace Channel

/-- Telemetry channel command, as matched in `handle_receiving` and
`handle_waiting` (`Command::Flush`, `Command::Terminate`, `Command::Close`). -/
inductive Command
  | Flush
  | Terminate
  | Close
  deriving DecidableEq

/-- The states of the `sm! worker` machine (state.rs lines 15-55).  Spec
naming: Buffering ≙ Receiving, BackingOff ≙ Waiting. -/
inductive State
  | Receiving
  | Sending
  | Waiting
  | Stopped
  deriving DecidableEq

/-- The events of the `sm! worker` machine.  Spec naming: TimerExpired ≙
TimeoutExpired, BatchSentContinue ≙ ItemsSentAndContinue, BatchSentStop ≙
ItemsSentAndStop. -/
inductive Event
  | TimeoutExpired
  | FlushRequested
  | CloseRequested
  | ItemsSentAndContinue
  | ItemsSentAndStop
  | RetryRequested
  | RetryExhausted
  | TerminateRequested
  deriving DecidableEq

/-- The transition table of the `sm! worker` machine, read off state.rs lines
15-55; `none` marks a pair the generated typed machine rejects at compile
time (no `transition` method exists for it). -/
def transition : State → Event → Option State
  | .Receiving, .TimeoutExpired => some .Sending
  | .Waiting, .TimeoutExpired => some .Sending
  | .Receiving, .FlushRequested => some .Sending
  | .Receiving, .CloseRequested => some .Sending
  | .Waiting, .CloseRequested => some .Stopped
  | .Sending, .ItemsSentAndContinue => some .Receiving
  | .Sending, .ItemsSentAndStop => some .Stopped
  | .Sending, .RetryRequested => some .Waiting
  | .Waiting, .RetryExhausted => some .Receiving
  | .Receiving, .TerminateRequested => some .Stopped
  | .Sending, .TerminateRequested => some .Stopped
  | .Waiting, .TerminateRequested => some .Stopped
  | _, _ => none

/-- The transition table exactly as the spec's §4.1 table lists it (eleven
rows), written with the source's names for states and events.  This follows
the spec's words, for comparison with `transition`; it is not a translation
of the source. -/
def specTransition : State → Event → Option State
  | .Receiving, .TimeoutExpired => some .Sending
  | .Receiving, .FlushRequested => some .Sending
  | .Receiving, .CloseRequested => some .Sending
  | .Receiving, .TerminateRequested => some .Stopped
  | .Waiting, .TimeoutExpired => some .Sending
  | .Waiting, .CloseRequested => some .Stopped
  | .Waiting, .TerminateRequested => some .Stopped
  | .Sending, .ItemsSentAndContinue => some .Receiving
  | .Sending, .ItemsSentAndStop => some .Stopped
  | .Sending, .RetryRequested => some .Waiting
  | .Sending, .TerminateRequested => some .Stopped
  | _, _ => none

/-- The spec's §4.1 table amended with the one row it is missing:
RetryExhausted moves Waiting (BackingOff) to Receiving (Buffering), as the
spec's own §4.2 BackingOff handler describes. -/
def specTransitionAmended (s : State) (e : Event) : Option State :=
  match s, e with
  | .Waiting, .RetryExhausted => some .Receiving
  | _, _ => specTransition s e

/-- The variants of the machine enum produced by `as_enum()`: the current
state tagged with the event that produced it, exactly the ten cases matched
in `Worker::run` (state.rs lines 86-97). -/
inductive Variant
  | InitialReceiving
  | ReceivingByItemsSentAndContinue
  | ReceivingByRetryExhausted
  | SendingByTimeoutExpired
  | SendingByFlushRequested
  | SendingByCloseRequested
  | WaitingByRetryRequested
  | StoppedByItemsSentAndStop
  | StoppedByCloseRequested
  | StoppedByTerminateRequested
  deriving DecidableEq

/-- The state carried by a machine variant. -/
def Variant.state : Variant → State
  | .InitialReceiving => .Receiving
  | .ReceivingByItemsSentAndContinue => .Receiving
  | .ReceivingByRetryExhausted => .Receiving
  | .SendingByTimeoutExpired => .Sending
  | .SendingByFlushRequested => .Sending
  | .SendingByCloseRequested => .Sending
  | .WaitingByRetryRequested => .Waiting
  | .StoppedByItemsSentAndStop => .Stopped
  | .StoppedByCloseRequested => .Stopped
  | .StoppedByTerminateRequested => .Stopped

/-- `Machine::new(Receiving).as_enum()`, the first state of `Worker::run`
(state.rs line 80). -/
def initialVariant : Variant := Variant.InitialReceiving

/-- Modelled from the spec: `crate::channel::retry::Retry`
(channel/retry.rs) is not under src/.  Per spec §4.3 a retry policy is a
stateful generator of backoff delays, consumed one per `next` call and
exhausted when none remain; it is modelled as the list of delays still to be
produced (delays in abstract time units). -/
structure Retry where
  delays : List Nat
  deriving DecidableEq

/-- Modelled from the spec: `Retry::exponential()` is a bounded, strictly
increasing, capped delay sequence exhausting after a fixed maximum attempt
count; the spec's example bound of 3 attempts is used. -/
def Retry.exponential : Retry := ⟨[2, 4, 8]⟩

/-- Modelled from the spec: `Retry::once()` "yields nothing on the first
call (i.e., its next delay is immediately exhausted)" (§4.3). -/
def Retry.once : Retry := ⟨[]⟩

/-- Modelled from the spec: `retry.next()` yields the next backoff delay and
the mutated policy, or `none` when the policy is exhausted. -/
def Retry.next (r : Retry) : Option (Nat × Retry) :=
  match r.delays with
  | [] => none
  | d :: rest => some (d, ⟨rest⟩)

/-- `crate::transmitter::Response`, with exactly the variants matched in
`handle_sending` (state.rs lines 172-189).  The `Throttled` delay hint is in
abstract time units. -/
inductive Response (α : Type)
  | Success
  | Retry (items : List α)
  | Throttled (retry_after : Nat) (items : List α)
  | NoRetry
  deriving DecidableEq

/-- The result of `transmitter.send(..).await`, a `Result<Response, _>`:
`ok` carries a `Response`, `err` is a transport failure (the error payload
is irrelevant to the worker, which only logs it). -/
inductive SendResult (α : Type)
  | ok (r : Response α)
  | err
  deriving DecidableEq

/-- The resolution of one `select!` arm race: a command arrived, the command
channel reported closed (`Err` from `recv`), or the timeout channel fired. -/
inductive SelectOutcome
  | cmd (c : Command)
  | closed
  | timeout
  deriving DecidableEq

/-- The worker's mutable state plus its environment traces.  `variant`,
`items` and `retry` are the `state`, `items` and `retry` locals of
`Worker::run`; `selects`, `drains` and `responses` are the environment
inputs still to be consumed; `sends` logs each batch passed to
`transmitter.send`. -/
structure Config (α : Type) where
  variant : Variant
  items : List α
  retry : Retry
  selects : List SelectOutcome
  drains : List (List α)
  responses : List (SendResult α)
  sends : List (List α)
  deriving DecidableEq

/-- `Worker::handle_receiving` (state.rs lines 101-131): clear the buffer,
then wait once on the command channel or the batching timer; every arm
returns, so exactly one select resolution is consumed. -/
def handle_receiving {α : Type} (c : Config α) : Option (Config α) :=
  match c.selects with
  | [] => none
  | s :: rest =>
    match s with
    | .cmd .Flush =>
      some { c with items := [], selects := rest, variant := .SendingByFlushRequested }
    | .cmd .Terminate =>
      some { c with items := [], selects := rest, variant := .StoppedByTerminateRequested }
    | .cmd .Close =>
      some { c with items := [], selects := rest, variant := .SendingByCloseRequested }
    | .closed =>
      some { c with items := [], selects := rest, variant := .StoppedByTerminateRequested }
    | .timeout =>
      some { c with items := [], selects := rest, variant := .SendingByTimeoutExpired }

/-- `Worker::handle_sending` (state.rs lines 155-196): drain the record
channel into the buffer; if the buffer is empty continue without a network
call, otherwise send it once and map the response as the source does. -/
def handle_sending {α : Type} (c : Config α) : Option (Config α) :=
  match c.drains with
  | [] => none
  | drained :: drest =>
    let items := c.items ++ drained
    if items.isEmpty then
      some { c with items := items, drains := drest, variant := .ReceivingByItemsSentAndContinue }
    else
      match c.responses with
      | [] => none
      | resp :: rrest =>
        let c2 : Config α :=
          { c with drains := drest, responses := rrest, sends := c.sends ++ [items] }
        match resp with
        | .ok .Success =>
          some { c2 with items := [], variant := .ReceivingByItemsSentAndContinue }
        | .ok (.Retry retry_items) =>
          some { c2 with items := retry_items, variant := .WaitingByRetryRequested }
        | .ok (.Throttled _ retry_items) =>
          some { c2 with items := retry_items, variant := .WaitingByRetryRequested }
        | .ok .NoRetry =>
          some { c2 with items := [], variant := .ReceivingByItemsSentAndContinue }
        | .err =>
          some { c2 with items := items, variant := .WaitingByRetryRequested }

/-- `Worker::handle_sending_with_retry` (state.rs lines 133-141): reset the
retry policy to a fresh exponential sequence, then run `handle_sending`. -/
def handle_sending_with_retry {α : Type} (c : Config α) : Option (Config α) :=
  handle_sending { c with retry := Retry.exponential }

/-- `Worker::handle_sending_once_and_terminate` (state.rs lines 143-153):
reset the retry policy to single-shot, run `handle_sending` for its effects,
discard its resulting variant and transition by TerminateRequested. -/
def handle_sending_once_and_terminate {α : Type} (c : Config α) : Option (Config α) :=
  match handle_sending { c with retry := Retry.once } with
  | none => none
  | some c2 => some { c2 with variant := .StoppedByTerminateRequested }

/-- How one `select!` wait of `handle_waiting` resolves, after skipping any
`Flush` commands (the `Command::Flush => continue` arm). -/
inductive WaitEvent
  | terminateRequested
  | closeRequested
  | timeoutExpired
  deriving DecidableEq

/-- The `loop select! { .. }` of `handle_waiting` (state.rs lines 209-229):
consume select resolutions, skipping `Flush`, until a command, a channel
error or the retry timeout decides the transition. -/
def wait_for_command : List SelectOutcome → Option (WaitEvent × List SelectOutcome)
  | [] => none
  | .cmd .Flush :: rest => wait_for_command rest
  | .cmd .Terminate :: rest => some (.terminateRequested, rest)
  | .cmd .Close :: rest => some (.closeRequested, rest)
  | .closed :: rest => some (.terminateRequested, rest)
  | .timeout :: rest => some (.timeoutExpired, rest)

/-- `Worker::handle_waiting` (state.rs lines 198-234): ask the retry policy
for the next delay; if exhausted transition by RetryExhausted without
waiting, otherwise wait for a non-Flush command, a channel error or the
retry timeout. -/
def handle_waiting {α : Type} (c : Config α) : Option (Config α) :=
  match c.retry.next with
  | none => some { c with variant := .ReceivingByRetryExhausted }
  | some (_, r2) =>
    match wait_for_command c.selects with
    | none => none
    | some (.terminateRequested, rest) =>
      some { c with retry := r2, selects := rest, variant := .StoppedByTerminateRequested }
    | some (.closeRequested, rest) =>
      some { c with retry := r2, selects := rest, variant := .StoppedByCloseRequested }
    | some (.timeoutExpired, rest) =>
      some { c with retry := r2, selects := rest, variant := .SendingByTimeoutExpired }

/-- One iteration of the `loop` in `Worker::run` (state.rs lines 85-98):
dispatch the current variant to its handler; `none` on the `Stopped`
variants models `break`, and `none` from a handler models a wait the finite
environment trace leaves undetermined. -/
def step {α : Type} (c : Config α) : Option (Config α) :=
  match c.variant with
  | .InitialReceiving => handle_receiving c
  | .ReceivingByItemsSentAndContinue => handle_receiving c
  | .ReceivingByRetryExhausted => handle_receiving c
  | .SendingByTimeoutExpired => handle_sending_with_retry c
  | .SendingByFlushRequested => handle_sending_with_retry c
  | .SendingByCloseRequested => handle_sending_once_and_terminate c
  | .WaitingByRetryRequested => handle_waiting c
  | .StoppedByItemsSentAndStop => none
  | .StoppedByCloseRequested => none
  | .StoppedByTerminateRequested => none

/-- Iterate `step` up to a given number of times, stopping when the loop
breaks or the environment trace runs out. -/
def run {α : Type} : Nat → Config α → Config α
  | 0, c => c
  | n + 1, c =>
    match step c with
    | some c2 => run n c2
    | none => c

/-- The variants visited by up to `n` iterations of the loop, starting with
the current one. -/
def trace {α : Type} : Nat → Config α → List Variant
  | 0, _ => []
  | n + 1, c =>
    c.variant ::
      (match step c with
       | some c2 => trace n c2
       | none => [])

/-- A worker that has just entered Sending by a timer with batch `[e]` and
retry policy `r`, in an environment whose record channel stays empty, whose
transmitter answers every one of `k` sends with `Retry([e])`, and whose
command channel stays silent through `k` backoff waits. -/
def c2cfg {α : Type} (e : α) (r : Retry) (k : Nat) : Config α :=
  ⟨.SendingByTimeoutExpired, [e], r,
    List.replicate k .timeout,
    List.replicate k [],
    List.replicate k (.ok (.Retry [e])),
    []⟩

/-- A buffering worker with nothing queued that receives a Close command. -/
def c4cex : Config Nat :=
  ⟨.InitialReceiving, [], Retry.exponential, [.cmd .Close], [[]], [], []⟩

/-- A worker entering Sending by a timer with an empty buffer and an empty
record channel. -/
def c6cex : Config Nat :=
  ⟨.SendingByTimeoutExpired, [], Retry.once, [], [[]], [], []⟩

/-- A backing-off worker whose retry policy is exhausted, about to cycle
through Buffering and Sending with an empty batch. -/
def c8cex : Config Nat :=
  ⟨.WaitingByRetryRequested, [7], Retry.once, [.timeout], [[]], [], []⟩

/-- A buffering worker that observes a Terminate command. -/
def w3a : Config Nat :=
  ⟨.InitialReceiving, [1], Retry.exponential, [.cmd .Terminate], [], [], []⟩

/-- A backing-off worker that observes a Flush then a Terminate command. -/
def w3b : Config Nat :=
  ⟨.WaitingByRetryRequested, [1], Retry.exponential, [.cmd .Flush, .cmd .Terminate], [], [], []⟩

/-- A buffering worker that receives a Close command with one record queued. -/
def w4 : Config Nat :=
  ⟨.ReceivingByItemsSentAndContinue, [9], Retry.exponential,
    [.cmd .Close], [[5]], [.err], []⟩

/-- A worker entering Sending by a Flush with one retained item and one
queued record, whose send is answered with `Retry([3])`. -/
def w5 : Config Nat :=
  ⟨.SendingByFlushRequested, [1], Retry.once, [], [[2]], [.ok (.Retry [3])], []⟩

/-- A worker entering Sending by a timer with a non-empty batch whose send
is accepted. -/
def w6 : Config Nat :=
  ⟨.SendingByTimeoutExpired, [4], Retry.once, [], [[]], [.ok .Success], []⟩

/-- A backing-off worker with delays remaining that receives a Close
command. -/
def w7 : Config Nat :=
  ⟨.WaitingByRetryRequested, [8], ⟨[4, 8]⟩, [.cmd .Close], [], [], []⟩

/-- A buffering worker whose batching timer fires with nothing queued. -/
def w8 : Config Nat :=
  ⟨.ReceivingByRetryExhausted, [6], Retry.once, [.timeout], [[]], [], []⟩

/-- A buffering worker whose batching timer fires, used to exercise one
loop iteration. -/
def w9 : Config Nat :=
  ⟨.InitialReceiving, [], Retry.exponential, [.timeout], [], [], []⟩

/-- A worker entering Sending by a timer with a retained item and two queued
records, whose send fails in transport. -/
def w10 : Config Nat :=
  ⟨.SendingByTimeoutExpired, [1], Retry.exponential, [], [[2, 3]], [.err], []⟩

/-- Claim C1, counterexample: the machine in the source admits the pair
(Waiting, RetryExhausted), moving to Receiving, which the spec's §4.1 table
does not list — so the code's table does not admit *exactly* the claimed
pairs. -/
theorem c1_counterexample :
    transition State.Waiting Event.RetryExhausted = some State.Receiving
      ∧ specTransition State.Waiting Event.RetryExhausted = none :=
  ⟨rfl, rfl⟩

/-- Claim C1, amended: the machine starts in Receiving (Buffering), and its
transition table admits exactly the pairs of the spec's §4.1 table plus the
one row that table is missing, RetryExhausted : Waiting → Receiving; every
other (state, event) pair is unrepresentable. -/
theorem c1_transition_table :
    (∀ s e, transition s e = specTransitionAmended s e)
      ∧ initialVariant.state = State.Receiving := by
  refine ⟨fun s e => ?_, rfl⟩
  cases s <;> cases e <;> rfl

/-- Claim C9: no handler ever emits ItemsSentAndStop, so no loop iteration
can produce the StoppedByItemsSentAndStop variant, the initial variant is
not it either, and a Stopped variant produced by a step is reached only by
CloseRequested or TerminateRequested. -/
theorem c9_items_sent_and_stop_unreachable (α : Type) :
    (∀ c c2 : Config α, step c = some c2 →
        c2.variant ≠ Variant.StoppedByItemsSentAndStop)
      ∧ (∀ c c2 : Config α, step c = some c2 → c2.variant.state = State.Stopped →
          c2.variant = Variant.StoppedByCloseRequested
            ∨ c2.variant = Variant.StoppedByTerminateRequested)
      ∧ initialVariant ≠ Variant.StoppedByItemsSentAndStop := by
  have key : ∀ c c2 : Config α, step c = some c2 →
      c2.variant = Variant.StoppedByItemsSentAndStop → False := by
    intro c c2 h hv
    obtain ⟨v, it, r, sel, dr, rsp, snd⟩ := c
    cases v <;>
      simp only [step, handle_receiving, handle_sending_with_retry,
        handle_sending_once_and_terminate, handle_sending, handle_waiting,
        Option.some.injEq] at h <;>
      (repeat' split at h) <;> cases h <;> simp at hv
  refine ⟨fun c c2 h => (key c c2 h ·), fun c c2 h hs => ?_, by simp [initialVariant]⟩
  cases hv : c2.variant <;> simp_all [Variant.state]
  exact key c c2 h hv

/-- Claim C9, witness. -/
theorem c9_witness :
    step w9 = some ⟨.SendingByTimeoutExpired, [], Retry.exponential, [], [], [], []⟩
      ∧ (⟨.SendingByTimeoutExpired, [], Retry.exponential, [], [], [], []⟩ :
          Config Nat).variant ≠ Variant.StoppedByItemsSentAndStop :=
  ⟨rfl, (c9_items_sent_and_stop_unreachable Nat).1 w9 _ rfl⟩

/-- Claim C5: for a non-empty batch sent from Sending (entered with a retry
reset, by a timer or a flush), the transmitter outcome maps exactly as the
source's match does: Success and NoRetry clear the buffer and continue to
Receiving; Retry and Throttled (hint ignored) replace the buffer with the
returned remainder and request a retry; a transport error keeps the batch
and requests a retry. -/
theorem c5_sending_outcomes {α : Type} (c : Config α) (d : List α) (D : List (List α))
    (resp : SendResult α) (R : List (SendResult α))
    (hv : c.variant = .SendingByTimeoutExpired ∨ c.variant = .SendingByFlushRequested)
    (hd : c.drains = d :: D) (hr : c.responses = resp :: R)
    (hne : c.items ++ d ≠ []) :
    step c = some
      (let c2 : Config α :=
        { c with retry := Retry.exponential, drains := D, responses := R,
                 sends := c.sends ++ [c.items ++ d] }
       match resp with
       | .ok .Success => { c2 with items := [], variant := .ReceivingByItemsSentAndContinue }
       | .ok (.Retry ri) => { c2 with items := ri, variant := .WaitingByRetryRequested }
       | .ok (.Throttled _ ri) => { c2 with items := ri, variant := .WaitingByRetryRequested }
       | .ok .NoRetry => { c2 with items := [], variant := .ReceivingByItemsSentAndContinue }
       | .err => { c2 with items := c.items ++ d, variant := .WaitingByRetryRequested }) := by
  obtain ⟨v, it, r, sel, dr, rsp, snd⟩ := c
  simp only at hd hr hne ⊢
  subst hd hr
  rcases hv with hv | hv <;> simp only at hv <;> subst hv <;>
    simp only [step, handle_sending_with_retry, handle_sending] <;>
    rw [if_neg (by simp_all [List.isEmpty_eq_true])] <;>
    cases resp with
    | err => rfl
    | ok r0 => cases r0 <;> rfl

/-- Claim C5, witness. -/
theorem c5_witness :
    (w5.variant = .SendingByTimeoutExpired ∨ w5.variant = .SendingByFlushRequested)
      ∧ w5.drains = [2] :: [] ∧ w5.responses = .ok (.Retry [3]) :: []
      ∧ w5.items ++ [2] ≠ []
      ∧ step w5 = some ⟨.WaitingByRetryRequested, [3], Retry.exponential, [], [], [], [[1, 2]]⟩ := by
  refine ⟨Or.inr rfl, rfl, rfl, by decide, ?_⟩
  exact c5_sending_outcomes w5 [2] [] (.ok (.Retry [3])) [] (Or.inr rfl) rfl rfl (by decide)

/-- Claim C7: a Close command observed while backing off (the retry policy
still has a delay, so the worker is really waiting) transitions by
CloseRequested straight to Stopped: the transmitter log and the buffered
batch are untouched, and the loop then breaks. -/
theorem c7_close_while_backing_off {α : Type} (c : Config α)
    (t : Nat) (ts : List Nat) (S : List SelectOutcome)
    (hv : c.variant = .WaitingByRetryRequested)
    (hr : c.retry.delays = t :: ts)
    (hsel : c.selects = .cmd .Close :: S) :
    step c = some { c with retry := ⟨ts⟩, selects := S, variant := .StoppedByCloseRequested }
      ∧ step { c with retry := (⟨ts⟩ : Retry), selects := S, variant := Variant.StoppedByCloseRequested } = none := by
  obtain ⟨v, it, r, sel, dr, rsp, snd⟩ := c
  obtain ⟨ds⟩ := r
  simp only at hv hr hsel
  subst hv hr hsel
  exact ⟨rfl, rfl⟩

/-- Helper: `handle_sending` appends exactly one batch, the retained buffer
followed by the drained records, to the transmitter log when that batch is
non-empty, and appends nothing when it is empty. -/
theorem handle_sending_sends {α : Type} (c c2 : Config α) (d : List α) (D : List (List α))
    (hd : c.drains = d :: D) (h : handle_sending c = some c2) :
    (c.items ++ d = [] ∧ c2.sends = c.sends)
      ∨ (c.items ++ d ≠ [] ∧ c2.sends = c.sends ++ [c.items ++ d]) := by
  obtain ⟨v, it, r, sel, dr, rsp, snd⟩ := c
  simp only at hd ⊢
  subst hd
  simp only [handle_sending, Option.some.injEq] at h
  rcases hit : it ++ d with _ | ⟨x, xs⟩ <;> rw [hit] at h
  · simp only [List.isEmpty_nil, if_true] at h
    cases h
    exact Or.inl ⟨rfl, rfl⟩
  · simp only [List.isEmpty_cons, Bool.false_eq_true, if_false] at h
    cases rsp with
    | nil => cases h
    | cons resp rrest =>
      refine Or.inr ⟨by simp, ?_⟩
      cases resp with
      | err => cases h; rfl
      | ok r0 => cases r0 <;> cases h <;> rfl

/-- Helper: one loop iteration from any Sending variant appends exactly one
batch (retained buffer plus drain) to the transmitter log when that batch is
non-empty, and appends nothing when it is empty. -/
theorem step_sending_sends {α : Type} (c c2 : Config α) (d : List α) (D : List (List α))
    (hv : c.variant.state = State.Sending) (hd : c.drains = d :: D)
    (h : step c = some c2) :
    (c.items ++ d = [] ∧ c2.sends = c.sends)
      ∨ (c.items ++ d ≠ [] ∧ c2.sends = c.sends ++ [c.items ++ d]) := by
  obtain ⟨v, it, r, sel, dr, rsp, snd⟩ := c
  simp only at hv hd ⊢
  cases v <;> simp [Variant.state] at hv
  case SendingByTimeoutExpired =>
    simp only [step, handle_sending_with_retry] at h
    exact handle_sending_sends _ c2 d D hd h
  case SendingByFlushRequested =>
    simp only [step, handle_sending_with_retry] at h
    exact handle_sending_sends _ c2 d D hd h
  case SendingByCloseRequested =>
    simp only [step, handle_sending_once_and_terminate, Option.some.injEq] at h
    split at h
    · cases h
    · rename_i c3 hh
      cases h
      have h2 := handle_sending_sends _ c3 d D hd hh
      simpa using h2

/-- Helper: `run` peels off one successful loop iteration. -/
theorem run_succ_of_step {α : Type} {c c1 : Config α} (h : step c = some c1) (n : Nat) :
    run (n + 1) c = run n c1 := by
  simp [run, h]

/-- Helper: `trace` peels off one successful loop iteration. -/
theorem trace_succ_of_step {α : Type} {c c1 : Config α} (h : step c = some c1) (n : Nat) :
    trace (n + 1) c = c.variant :: trace n c1 := by
  simp [trace, h]

/-- Helper: under a transmitter that answers every send of `[e]` with
`Retry([e])`, an empty record channel and a silent command channel, each
pair of loop iterations takes a timer-triggered Sending entry through one
send and one backoff wait straight back to a timer-triggered Sending entry;
the re-entry resets the retry policy, so the exponential sequence is never
consumed more than one delay deep and never exhausts. -/
theorem c2_loop {α : Type} (e : α) :
    ∀ (k : Nat) (r : Retry) (S : List SelectOutcome) (D : List (List α))
      (R : List (SendResult α)) (acc : List (List α)),
      run (2 * k) (⟨.SendingByTimeoutExpired, [e], r, List.replicate k .timeout ++ S, List.replicate k [] ++ D, List.replicate k (.ok (.Retry [e])) ++ R, acc⟩ : Config α)
          = ⟨.SendingByTimeoutExpired, [e], if k = 0 then r else ⟨[4, 8]⟩, S, D, R, acc ++ List.replicate k [e]⟩
        ∧ trace (2 * k) (⟨.SendingByTimeoutExpired, [e], r, List.replicate k .timeout ++ S, List.replicate k [] ++ D, List.replicate k (.ok (.Retry [e])) ++ R, acc⟩ : Config α)
          = (List.replicate k [Variant.SendingByTimeoutExpired, Variant.WaitingByRetryRequested]).flatten := by
  intro k
  induction k with
  | zero =>
    intro r S D R acc
    simp [run, trace]
  | succ k ih =>
    intro r S D R acc
    have h2 : 2 * (k + 1) = 2 * k + 1 + 1 := by ring
    simp only [h2, List.replicate_succ, List.cons_append]
    have hs0 : step (⟨.SendingByTimeoutExpired, [e], r, .timeout :: (List.replicate k .timeout ++ S), [] :: (List.replicate k [] ++ D), .ok (.Retry [e]) :: (List.replicate k (.ok (.Retry [e])) ++ R), acc⟩ : Config α)
        = some ⟨.WaitingByRetryRequested, [e], Retry.exponential, .timeout :: (List.replicate k .timeout ++ S), List.replicate k [] ++ D, List.replicate k (.ok (.Retry [e])) ++ R, acc ++ [[e]]⟩ := rfl
    have hs1 : step (⟨.WaitingByRetryRequested, [e], Retry.exponential, .timeout :: (List.replicate k .timeout ++ S), List.replicate k [] ++ D, List.replicate k (.ok (.Retry [e])) ++ R, acc ++ [[e]]⟩ : Config α)
        = some ⟨.SendingByTimeoutExpired, [e], ⟨[4, 8]⟩, List.replicate k .timeout ++ S, List.replicate k [] ++ D, List.replicate k (.ok (.Retry [e])) ++ R, acc ++ [[e]]⟩ := rfl
    obtain ⟨ih1, ih2⟩ := ih ⟨[4, 8]⟩ S D R (acc ++ [[e]])
    constructor
    · rw [run_succ_of_step hs0, run_succ_of_step hs1, ih1]
      simp [List.replicate_succ, List.append_assoc]
    · rw [trace_succ_of_step hs0, trace_succ_of_step hs1, ih2]
      simp [List.replicate_succ]

/-- Claim C2 (code bug): with the exponential policy bounded at 3 attempts
and a transmitter answering every attempt of batch `[e]` with `Retry([e])`,
for every `k` the worker has performed exactly `k` sends after `2k` loop
iterations and is once more entering Sending with `[e]` still buffered; the
visited variants alternate Sending and BackingOff forever, so
ReceivingByRetryExhausted and the Stopped variants never occur and the batch
is never dropped — the backoff re-entry `SendingByTimeoutExpired` is routed
through `handle_sending_with_retry`, which resets the policy before every
attempt, so it can never exhaust. -/
theorem c2_retry_never_exhausts {α : Type} (e : α) (k : Nat) (r : Retry) :
    (run (2 * k) (c2cfg e r k)).sends = List.replicate k [e]
      ∧ (run (2 * k) (c2cfg e r k)).variant = Variant.SendingByTimeoutExpired
      ∧ (run (2 * k) (c2cfg e r k)).items = [e]
      ∧ trace (2 * k) (c2cfg e r k)
          = (List.replicate k [Variant.SendingByTimeoutExpired, Variant.WaitingByRetryRequested]).flatten := by
  have hc : c2cfg e r k = (⟨.SendingByTimeoutExpired, [e], r, List.replicate k .timeout ++ [], List.replicate k [] ++ [], List.replicate k (.ok (.Retry [e])) ++ [], []⟩ : Config α) := by
    simp [c2cfg]
  obtain ⟨h1, h2⟩ := c2_loop e k r [] [] [] []
  refine ⟨?_, ?_, ?_, ?_⟩
  · rw [hc, h1]; simp
  · rw [hc, h1]
  · rw [hc, h1]
  · rw [hc, h2]

/-- Claim C3: whenever a wait observes a Terminate command or a closed
command channel — in a Buffering wait, or in a BackingOff wait whose retry
policy still has a delay (skipping any Flush commands within the same wait) —
the very next variant is StoppedByTerminateRequested, with the transmitter
log untouched, and a Stopped variant makes the loop break, so no further
send attempt ever happens. -/
theorem c3_terminate_stops (α : Type) :
    (∀ (c : Config α) (s : SelectOutcome) (S : List SelectOutcome),
        c.variant.state = State.Receiving → c.selects = s :: S →
        (s = .cmd .Terminate ∨ s = .closed) →
        step c = some { c with items := ([] : List α), selects := S, variant := Variant.StoppedByTerminateRequested }
          ∧ step { c with items := ([] : List α), selects := S, variant := Variant.StoppedByTerminateRequested } = none)
      ∧ (∀ (c : Config α) (t : Nat) (ts : List Nat) (S : List SelectOutcome),
          c.variant = Variant.WaitingByRetryRequested → c.retry.delays = t :: ts →
          wait_for_command c.selects = some (.terminateRequested, S) →
          step c = some { c with retry := (⟨ts⟩ : Retry), selects := S, variant := Variant.StoppedByTerminateRequested }
            ∧ step { c with retry := (⟨ts⟩ : Retry), selects := S, variant := Variant.StoppedByTerminateRequested } = none)
      ∧ (∀ c : Config α, c.variant.state = State.Stopped → step c = none) := by
  refine ⟨?_, ?_, ?_⟩
  · intro c s S hv hsel hs
    obtain ⟨v, it, r, sel, dr, rsp, snd⟩ := c
    simp only at hv hsel ⊢
    subst hsel
    rcases hs with h | h <;> subst h <;>
      cases v <;> simp [Variant.state] at hv <;> exact ⟨rfl, rfl⟩
  · intro c t ts S hv hr hw
    obtain ⟨v, it, r, sel, dr, rsp, snd⟩ := c
    obtain ⟨ds⟩ := r
    simp only at hv hr hw ⊢
    subst hv hr
    refine ⟨?_, rfl⟩
    simp only [step, handle_waiting, Retry.next, hw]
  · intro c hv
    obtain ⟨v, it, r, sel, dr, rsp, snd⟩ := c
    cases v <;> simp [Variant.state] at hv <;> rfl

/-- Claim C3, witness. -/
theorem c3_witness :
    step w3a = some ⟨.StoppedByTerminateRequested, [], Retry.exponential, [], [], [], []⟩
      ∧ step w3b = some ⟨.StoppedByTerminateRequested, [1], ⟨[4, 8]⟩, [], [], [], []⟩
      ∧ step (⟨.StoppedByCloseRequested, [], Retry.once, [], [], [], []⟩ : Config Nat) = none := by
  refine ⟨?_, ?_, ?_⟩
  · exact ((c3_terminate_stops Nat).1 w3a (.cmd .Terminate) [] rfl rfl (Or.inl rfl)).1
  · exact ((c3_terminate_stops Nat).2.1 w3b 2 [4, 8] [] rfl rfl rfl).1
  · exact (c3_terminate_stops Nat).2.2 _ rfl

/-- Claim C6, counterexample: entering Sending by a timer with an empty
buffer and an empty record channel performs zero transmitter send attempts
before continuing to Receiving — the claim's "never zero" fails. -/
theorem c6_counterexample :
    c6cex.variant.state = State.Sending
      ∧ step c6cex = some ⟨.ReceivingByItemsSentAndContinue, [], Retry.exponential, [], [], [], []⟩
      ∧ (⟨.ReceivingByItemsSentAndContinue, [], Retry.exponential, [], [], [], []⟩ : Config Nat).sends
          = c6cex.sends :=
  ⟨rfl, rfl, rfl⟩

/-- Claim C6, amended: every entry into Sending performs at most one
transmitter send attempt before its transition — exactly one when the buffer
after draining is non-empty, and zero when it is empty; repeated retries only
ever occur as repeated entries into Sending. -/
theorem c6_at_most_one_send {α : Type} (c c2 : Config α) (d : List α) (D : List (List α))
    (hv : c.variant.state = State.Sending) (hd : c.drains = d :: D)
    (h : step c = some c2) :
    (c.items ++ d = [] ∧ c2.sends = c.sends)
      ∨ (c.items ++ d ≠ [] ∧ c2.sends = c.sends ++ [c.items ++ d]) :=
  step_sending_sends c c2 d D hv hd h

/-- Claim C6, witness. -/
theorem c6_witness :
    w6.variant.state = State.Sending ∧ w6.drains = [] :: [] ∧ step w6 = some ⟨.ReceivingByItemsSentAndContinue, [], Retry.exponential, [], [], [], [[4]]⟩
      ∧ ((w6.items ++ [] = [] ∧ ([[4]] : List (List Nat)) = w6.sends)
          ∨ (w6.items ++ [] ≠ [] ∧ ([[4]] : List (List Nat)) = w6.sends ++ [w6.items ++ []])) := by
  refine ⟨rfl, rfl, rfl, ?_⟩
  exact c6_at_most_one_send w6 _ [] [] rfl rfl rfl

/-- Claim C10: whenever a Sending entry invokes the transmitter, the batch
passed to it is exactly the retained buffer followed by the whole drain of
the record channel, in order, with nothing reordered, deduplicated or
dropped; the buffer a Sending entry retains is empty when Sending was
entered from Receiving (whose handler cleared it) and is the untouched retry
remainder when entered from a BackingOff timer. -/
theorem c10_batch_content (α : Type) :
    (∀ (c c2 : Config α) (d : List α) (D : List (List α)),
        c.variant.state = State.Sending → c.drains = d :: D → c.items ++ d ≠ [] →
        step c = some c2 → c2.sends = c.sends ++ [c.items ++ d])
      ∧ (∀ c c2 : Config α, c.variant.state = State.Receiving → step c = some c2 →
          c2.items = [])
      ∧ (∀ c c2 : Config α, c.variant = Variant.WaitingByRetryRequested → step c = some c2 →
          c2.variant = Variant.SendingByTimeoutExpired → c2.items = c.items) := by
  refine ⟨?_, ?_, ?_⟩
  · intro c c2 d D hv hd hne h
    rcases step_sending_sends c c2 d D hv hd h with ⟨he, _⟩ | ⟨_, hs⟩
    · exact absurd he hne
    · exact hs
  · intro c c2 hv h
    obtain ⟨v, it, r, sel, dr, rsp, snd⟩ := c
    cases v <;> simp [Variant.state] at hv <;>
      simp only [step, handle_receiving, Option.some.injEq] at h <;>
      (repeat' split at h) <;> cases h <;> rfl
  · intro c c2 hv h hv2
    obtain ⟨v, it, r, sel, dr, rsp, snd⟩ := c
    simp only at hv ⊢
    subst hv
    simp only [step, handle_waiting, Option.some.injEq] at h
    (repeat' split at h) <;> cases h <;> simp_all

/-- Claim C10, witness. -/
theorem c10_witness :
    w10.variant.state = State.Sending ∧ w10.drains = [2, 3] :: [] ∧ w10.items ++ [2, 3] ≠ []
      ∧ step w10 = some ⟨.WaitingByRetryRequested, [1, 2, 3], Retry.exponential, [], [], [], [[1, 2, 3]]⟩
      ∧ ([[1, 2, 3]] : List (List Nat)) = w10.sends ++ [w10.items ++ [2, 3]] := by
  refine ⟨rfl, rfl, by decide, rfl, ?_⟩
  exact (c10_batch_content Nat).1 w10 _ [2, 3] [] rfl rfl (by decide) rfl

/-- Claim C4, counterexample: a Close received while Buffering with nothing
queued leads through a Sending entry to Stopped with zero transmitter send
attempts, not exactly one. -/
theorem c4_counterexample :
    (run 1 c4cex).variant = Variant.SendingByCloseRequested
      ∧ (run 2 c4cex).variant = Variant.StoppedByTerminateRequested
      ∧ (run 2 c4cex).sends = [] :=
  ⟨rfl, rfl, rfl⟩

/-- Claim C4, amended: a Close received while Buffering moves to Sending and
causes at most one additional send attempt — exactly one when the drained
buffer is non-empty, none when it is empty — under a single-shot retry
policy, after which the worker transitions by TerminateRequested to Stopped
unconditionally, whatever the attempt's outcome, and the loop breaks: never
a second attempt, never BackingOff, never further waiting. -/
theorem c4_close_then_stop {α : Type} (c : Config α) (S : List SelectOutcome)
    (d : List α) (D : List (List α)) (resp : SendResult α) (R : List (SendResult α))
    (hv : c.variant.state = State.Receiving)
    (hsel : c.selects = .cmd .Close :: S)
    (hd : c.drains = d :: D) (hr : c.responses = resp :: R) :
    (run 1 c).variant = Variant.SendingByCloseRequested
      ∧ (run 2 c).variant = Variant.StoppedByTerminateRequested
      ∧ (run 2 c).retry = Retry.once
      ∧ (d = [] → (run 2 c).sends = c.sends)
      ∧ (d ≠ [] → (run 2 c).sends = c.sends ++ [d])
      ∧ step (run 2 c) = none := by
  obtain ⟨v, it, r, sel, dr, rsp, snd⟩ := c
  simp only at hv hsel hd hr ⊢
  subst hsel hd hr
  cases v <;> simp [Variant.state] at hv
  all_goals (
    rcases d with _ | ⟨x, xs⟩
    · exact ⟨rfl, rfl, rfl, fun _ => rfl, fun hne => absurd rfl hne, rfl⟩
    · cases resp with
      | err => exact ⟨rfl, rfl, rfl, fun h0 => by simp at h0, fun _ => rfl, rfl⟩
      | ok r0 =>
        cases r0 <;>
          exact ⟨rfl, rfl, rfl, fun h0 => by simp at h0, fun _ => rfl, rfl⟩)

/-- Claim C4, witness. -/
theorem c4_witness :
    w4.variant.state = State.Receiving ∧ w4.selects = .cmd .Close :: []
      ∧ w4.drains = [5] :: [] ∧ w4.responses = .err :: []
      ∧ (run 1 w4).variant = Variant.SendingByCloseRequested
      ∧ (run 2 w4).variant = Variant.StoppedByTerminateRequested
      ∧ (run 2 w4).retry = Retry.once
      ∧ ([5] ≠ ([] : List Nat) → (run 2 w4).sends = w4.sends ++ [[5]]) := by
  have h := c4_close_then_stop w4 [] [5] [] .err [] rfl rfl rfl rfl
  exact ⟨rfl, rfl, rfl, rfl, h.1, h.2.1, h.2.2.1, h.2.2.2.2.1⟩

/-- Claim C8, counterexample: starting from an exhausted BackingOff wait,
the worker cycles Buffering → Sending → Buffering with an empty batch and
without invoking the transmitter, yet its RetryState changes: the Sending
entry overwrites the exhausted policy with a fresh exponential one. -/
theorem c8_counterexample :
    (run 1 c8cex).variant.state = State.Receiving
      ∧ (run 2 c8cex).variant.state = State.Sending
      ∧ (run 3 c8cex).variant.state = State.Receiving
      ∧ (run 3 c8cex).sends = []
      ∧ (run 1 c8cex).retry ≠ (run 3 c8cex).retry :=
  ⟨rfl, rfl, rfl, rfl, by decide⟩

/-- Claim C8, amended: a Buffering → Sending → Buffering cycle with an empty
batch never invokes the transmitter and leaves the buffer empty, but it
always resets the RetryState to the fresh exponential policy; the cycle is
therefore idempotent on the worker state (environment consumption apart)
exactly when the RetryState is already the fresh exponential one, hence from
the second consecutive empty cycle on. -/
theorem c8_empty_cycle {α : Type} (c : Config α) (S : List SelectOutcome) (D : List (List α))
    (hv : c.variant.state = State.Receiving)
    (hsel : c.selects = .timeout :: S)
    (hd : c.drains = ([] : List α) :: D) :
    run 2 c = { c with variant := Variant.ReceivingByItemsSentAndContinue, items := ([] : List α), retry := Retry.exponential, selects := S, drains := D } := by
  obtain ⟨v, it, r, sel, dr, rsp, snd⟩ := c
  simp only at hv hsel hd ⊢
  subst hsel hd
  cases v <;> simp [Variant.state] at hv <;> rfl

/-- Claim C8, witness. -/
theorem c8_witness :
    w8.variant.state = State.Receiving ∧ w8.selects = .timeout :: [] ∧ w8.drains = [] :: []
      ∧ run 2 w8 = ⟨.ReceivingByItemsSentAndContinue, [], Retry.exponential, [], [], [], []⟩ := by
  refine ⟨rfl, rfl, rfl, ?_⟩
  exact c8_empty_cycle w8 [] [] rfl rfl rfl

/-- Claim C7, witness. -/
theorem c7_witness :
    w7.variant = .WaitingByRetryRequested ∧ w7.retry.delays = 4 :: [8]
      ∧ w7.selects = .cmd .Close :: []
      ∧ step w7 = some ⟨.StoppedByCloseRequested, [8], ⟨[8]⟩, [], [], [], []⟩ := by
  refine ⟨rfl, rfl, rfl, ?_⟩
  exact (c7_close_while_backing_off w7 4 [8] [] rfl rfl rfl).1

end Channel
